import Mathlib

/-!
Shallow embedding of the client-side logic of the imoee_vision frontend
(React single-page app).  Each definition mirrors one function or component
of the TypeScript source:

* `requestInterceptor` — the axios request interceptor of `src/api/axios.ts`
  (token refresh, storage updates, Authorization header injection);
* `login` — the `login` function of `src/context/AuthContext.tsx`;
* `AdminRoute` — the route guard component (Super-Administrador check);
* `validationSchema` — the Yup schema of `src/components/ConfiguracionForm.tsx`;
* `createSchema` / `editSchema` — the Yup schemas of
  `src/components/UsuarioForm.tsx`;
* the analysis-dashboard button logic of `src/pages/AnalisisCoples.tsx`;
* the Super-Administrador filters of `src/pages/Usuarios.tsx` and
  `src/components/UsuarioForm.tsx`.

Machine-level details abstracted: time is a Unix timestamp in whole seconds
(`Nat`); network calls are modelled by their outcome, passed as an `Option`
parameter (`some` = resolved with that payload, `none` = rejected).
-/

namespace ImoeeVision

/-- JS truthiness of a `localStorage.getItem` result: `null` (here `none`)
and the empty string are falsy, every other string is truthy. -/
def truthy : Option String → Bool
  | none => false
  | some s => !s.isEmpty

/-- Models `parseInt` applied to the stored expiry string.  The app only ever
stores canonical decimal strings (produced by `dayjs().unix().toString()`),
which this parses to their value; for a non-numeric string `parseInt` yields
`NaN` (here `none`), and every `dayjs` comparison against the resulting
invalid date is false, matching the `none` branch of the interceptor. -/
def parseIntNat (s : String) : Option Nat :=
  if !s.data.isEmpty && s.data.all Char.isDigit then
    some (s.data.foldl (fun n c => n * 10 + (c.toNat - 48)) 0)
  else none

/-- The three localStorage keys the client persists
(`accessToken`, `refreshToken`, `accessTokenExp`). -/
structure Store where
  accessToken : Option String
  refreshToken : Option String
  accessTokenExp : Option String
  deriving Repr, DecidableEq

/-- The store after `localStorage.removeItem` on all three keys. -/
def emptyStore : Store := ⟨none, none, none⟩

/-- Outcome of one run of the request interceptor: the localStorage contents
afterwards, the `Authorization` header put on the outgoing request (if any),
and whether a `token/refresh/` exchange was attempted. -/
structure InterceptResult where
  store : Store
  authHeader : Option String
  refreshAttempted : Bool
  deriving Repr, DecidableEq

/-- The request interceptor of `src/api/axios.ts` (`API.interceptors.request.use`).
`now` is the current Unix time in seconds; `refreshResult` is the outcome of
the `POST token/refresh/` call (`some newAccess` on success, `none` on
failure) — the call is only consulted when the interceptor actually makes it.

Mirrors the source: if `accessToken` and `accessTokenExp` are truthy and
`dayjs().add(1, "minute").isAfter(exp)` holds and `refreshToken` is truthy,
refresh; on success store the new access token and `now + 1h`, inject the
new token, and return; on failure remove all three keys and fall through;
in every fall-through case inject the old access token. -/
def requestInterceptor (s : Store) (now : Nat) (refreshResult : Option String) :
    InterceptResult :=
  if truthy s.accessToken && truthy s.accessTokenExp then
    let access := s.accessToken.getD ""
    let needsRefresh :=
      (match parseIntNat (s.accessTokenExp.getD "") with
        | some exp => decide (now + 60 > exp)
        | none => false) && truthy s.refreshToken
    if needsRefresh then
      match refreshResult with
      | some newAccess =>
          { store := { s with accessToken := some newAccess,
                              accessTokenExp := some (toString (now + 3600)) }
            authHeader := some ("Bearer " ++ newAccess)
            refreshAttempted := true }
      | none =>
          { store := emptyStore
            authHeader := some ("Bearer " ++ access)
            refreshAttempted := true }
    else
      { store := s
        authHeader := some ("Bearer " ++ access)
        refreshAttempted := false }
  else
    { store := s, authHeader := none, refreshAttempted := false }

/-- A user profile as returned by `GET /users/me/`
(`UsuarioPerfil`, src/api/usuarios.ts; `name` is optional there). -/
structure UsuarioPerfil where
  id : Nat
  username : String
  email : String
  name : Option String
  rol : Nat
  rol_nombre : String
  deriving Repr, DecidableEq

/-- Client state touched by `login`/`logout` in `src/context/AuthContext.tsx`:
the localStorage keys, the axios default Authorization header, and the
`user` React state. -/
structure ClientState where
  store : Store
  defaultAuth : Option String
  user : Option UsuarioPerfil
  deriving Repr, DecidableEq

/-- Whether the `login` promise resolved or rejected. -/
inductive LoginOutcome where
  | resolved
  | rejected
  deriving Repr, DecidableEq

/-- The `login` function of `src/context/AuthContext.tsx`.  `tokenResult` is
the outcome of `POST /token/` (`some (access, refresh)` on success);
`profileResult` is the outcome of the subsequent `GET /users/me/`.  A failed
step throws, so later statements do not run, and the exception propagates to
the caller (the promise rejects); there is no rollback of earlier writes. -/
def login (st : ClientState) (now : Nat)
    (tokenResult : Option (String × String))
    (profileResult : Option UsuarioPerfil) : LoginOutcome × ClientState :=
  match tokenResult with
  | none => (.rejected, st)
  | some (access, refresh) =>
      let st1 : ClientState :=
        { st with
          store := { accessToken := some access
                     refreshToken := some refresh
                     accessTokenExp := some (toString (now + 3600)) }
          defaultAuth := some ("Bearer " ++ access) }
      match profileResult with
      | none => (.rejected, st1)
      | some perfil => (.resolved, { st1 with user := some perfil })

/-- What a guard component renders: its children, or a `<Navigate to=…/>`. -/
inductive RenderOutcome where
  | children
  | navigateTo (path : String)
  deriving Repr, DecidableEq

/-- The `AdminRoute` guard component: if there is no user or the user's
`rol_nombre` is not Super Administrador, navigate to "/", else render the
children. -/
def AdminRoute (user : Option UsuarioPerfil) : RenderOutcome :=
  match user with
  | none => .navigateTo "/"
  | some u =>
      if u.rol_nombre ≠ "Super Administrador" then .navigateTo "/" else .children

/-- The `configuracion_activa` payload inside the system status
(`EstadoSistema`, src/api/analisis.ts). -/
structure ConfiguracionActiva where
  id : Nat
  nombre : String
  umbral_confianza : Rat
  configuracion_robustez : String
  deriving Repr, DecidableEq

/-- The system status fetched by the analysis dashboard
(`EstadoSistema`, src/api/analisis.ts). -/
structure EstadoSistema where
  inicializado : Bool
  configuracion_activa : Option ConfiguracionActiva
  deriving Repr, DecidableEq

/-- JS truthiness of `estadoSistema?.inicializado`: `undefined` (status not
yet fetched) is falsy. -/
def sistemaInicializado (estado : Option EstadoSistema) : Bool :=
  match estado with
  | some e => e.inicializado
  | none => false

/-- The `disabled` prop of the Iniciar Análisis button in
`src/pages/AnalisisCoples.tsx`: `procesando || !estadoSistema?.inicializado`. -/
def triggerButtonDisabled (procesando : Bool) (estado : Option EstadoSistema) : Bool :=
  procesando || !sistemaInicializado estado

/-- The two buttons of the system-status card header. -/
inductive SistemaButton where
  | liberar
  | inicializar
  deriving Repr, DecidableEq

/-- Which system-control button the status card renders:
`estadoSistema?.inicializado ? <Liberar/> : <Inicializar/>`. -/
def sistemaButtonRendered (estado : Option EstadoSistema) : SistemaButton :=
  if sistemaInicializado estado then .liberar else .inicializar

/-- The `disabled` prop of the Liberar / Inicializar buttons: neither carries
one in the source, so whichever is rendered is always enabled. -/
def sistemaButtonDisabled (b : SistemaButton) : Bool :=
  match b with
  | .liberar => false
  | .inicializar => false

/-- A role as returned by `GET /roles/` (`Rol`, src/api/roles.ts). -/
structure Rol where
  id : Nat
  rol_nombre : String
  rol_descripcion : String
  deriving Repr, DecidableEq

/-- The `load` function of `src/pages/Usuarios.tsx`: the rows displayed are
the fetched users with every Super Administrador filtered out. -/
def loadUsuarios (fetched : List UsuarioPerfil) : List UsuarioPerfil :=
  fetched.filter (fun u => !(u.rol_nombre == "Super Administrador"))

/-- The role list behind the dropdown of `src/components/UsuarioForm.tsx`:
on a successful fetch the Super Administrador role is filtered out, on a
failed fetch the list is empty. -/
def rolesDropdown (fetched : Option (List Rol)) : List Rol :=
  match fetched with
  | some rs => rs.filter (fun r => !(r.rol_nombre == "Super Administrador"))
  | none => []

/-- Splits a character list at every '.', keeping empty segments, so that a
string matches the anchored IP regex
`^(?:octet\.){3}octet$` exactly when this split of its characters has four
parts and each part matches the octet alternation (octets contain no dots). -/
def splitOnDot : List Char → List (List Char)
  | [] => [[]]
  | c :: rest =>
      match splitOnDot rest with
      | [] => []
      | p :: ps => if c = '.' then [] :: p :: ps else (c :: p) :: ps

/-- One part against the octet alternation of the regex in
`src/components/ConfiguracionForm.tsx`:
`25[0-5] | 2[0-4][0-9] | [01]?[0-9][0-9]?`.  A one- or two-character part is
matched only by the third alternative (for two characters, with or without
the optional leading `[01]`, which together accept any two digits). -/
def matchesOctet (p : List Char) : Bool :=
  match p with
  | [a] => a.isDigit
  | [a, b] => a.isDigit && b.isDigit
  | [a, b, c] =>
      (a == '2' && b == '5' && decide ('0' ≤ c) && decide (c ≤ '5')) ||
      (a == '2' && decide ('0' ≤ b) && decide (b ≤ '4') && c.isDigit) ||
      ((a == '0' || a == '1') && b.isDigit && c.isDigit)
  | _ => false

/-- The full IPv4 regex of the configuration form applied to a string:
four dot-separated parts, each matching the octet alternation. -/
def matchesIPv4 (s : String) : Bool :=
  (splitOnDot s.data).length == 4 && (splitOnDot s.data).all matchesOctet

/-- Modelled from the spec: the decimal value of an octet ("each octet
0–255"), used to compare the source regex against the spec's reading. -/
def specOctetValue (p : List Char) : Nat :=
  p.foldl (fun n c => n * 10 + (c.toNat - 48)) 0

/-- The values handled by the configuration form
(`src/components/ConfiguracionForm.tsx`); the thresholds are `none` when the
field is empty (yup required fails), and numbers are modelled as rationals. -/
structure ConfigFormValues where
  nombre : String
  ip_camara : String
  umbral_confianza : Option Rat
  umbral_iou : Option Rat
  configuracion_robustez : String
  activa : Bool
  deriving Repr, DecidableEq

/-- Models `yup.number().required().min(0, …).max(1, …)`: present and in [0, 1]. -/
def umbralOk (o : Option Rat) : Bool :=
  match o with
  | some q => decide (0 ≤ q) && decide (q ≤ 1)
  | none => false

/-- The `oneOf` list of the robustness preset. -/
def robustezOptions : List String :=
  ["original", "moderada", "permisiva", "ultra_permisiva"]

/-- Models `yup.string().required().min(3, …)` on nombre. -/
def nombreOk (s : String) : Bool :=
  !s.isEmpty && decide (3 ≤ s.length)

/-- Models `yup.string().required().matches(ipRegex, …)` on ip_camara. -/
def ipOk (s : String) : Bool :=
  !s.isEmpty && matchesIPv4 s

/-- Models `yup.string().required().oneOf([…])` on configuracion_robustez. -/
def robustezOk (s : String) : Bool :=
  !s.isEmpty && robustezOptions.contains s

/-- The `validationSchema` of `src/components/ConfiguracionForm.tsx`:
nombre required with at least 3 characters; ip_camara required and matching
the IPv4 regex; both thresholds required and in [0, 1]; robustness preset
required and one of the four options. -/
def validationSchema (v : ConfigFormValues) : Bool :=
  nombreOk v.nombre &&
  ipOk v.ip_camara &&
  umbralOk v.umbral_confianza &&
  umbralOk v.umbral_iou &&
  robustezOk v.configuracion_robustez

/-- The values handled by the user form (`UsuarioPayload` plus
`confirmPassword`, with absent optional strings as ""). -/
structure UsuarioFormValues where
  username : String
  email : String
  name : String
  rol : Int
  password : String
  confirmPassword : String
  deriving Repr, DecidableEq

/-- The `base` field rules shared by both user-form schemas: username, email
and name required (non-empty), email well-formed, rol a number ≥ 1.  The
well-formedness test of `yup.string().email()` lives in the yup library, not
in this repository, so it is passed in as a parameter `emailOk`. -/
def baseOk (emailOk : String → Bool) (v : UsuarioFormValues) : Bool :=
  !v.username.isEmpty && (!v.email.isEmpty && emailOk v.email) &&
  !v.name.isEmpty && decide (1 ≤ v.rol)

/-- The `createSchema` of `src/components/UsuarioForm.tsx`: password and
confirmPassword required, and confirmPassword must be `oneOf([ref('password')])`. -/
def createSchema (emailOk : String → Bool) (v : UsuarioFormValues) : Bool :=
  baseOk emailOk v && !v.password.isEmpty &&
  (!v.confirmPassword.isEmpty && v.confirmPassword == v.password)

/-- The `editSchema` of `src/components/UsuarioForm.tsx`: password optional;
confirmPassword checked by the `match-if-changed` test, which passes when the
password is empty and otherwise demands equality. -/
def editSchema (emailOk : String → Bool) (v : UsuarioFormValues) : Bool :=
  baseOk emailOk v &&
  (if v.password.isEmpty then true else v.confirmPassword == v.password)

/-- Characterisation of when one interceptor run attempts a refresh
(shared helper). -/
lemma refreshAttempted_char (s : Store) (now : Nat) (r : Option String) :
    (requestInterceptor s now r).refreshAttempted = true ↔
      (truthy s.accessToken = true ∧ truthy s.accessTokenExp = true ∧
       truthy s.refreshToken = true ∧
       ∃ exp, parseIntNat (s.accessTokenExp.getD "") = some exp ∧ now + 60 > exp) := by
  unfold requestInterceptor
  rcases ha : truthy s.accessToken <;> rcases he : truthy s.accessTokenExp <;>
    rcases hp : parseIntNat (s.accessTokenExp.getD "") with _ | exp <;>
    rcases hr : truthy s.refreshToken <;> rcases r with _ | t <;>
    first
    | (by_cases hlt : now + 60 > exp <;> simp_all <;>
        (rw [if_neg (by omega)] ; simp ; omega))
    | simp_all

/-- On the refresh path with a successful exchange, the whole interceptor
result, computed (shared helper). -/
lemma interceptor_success_eq (s : Store) (now : Nat) (t : String) (exp : Nat)
    (ha : truthy s.accessToken = true) (he : truthy s.accessTokenExp = true)
    (hr : truthy s.refreshToken = true)
    (hp : parseIntNat (s.accessTokenExp.getD "") = some exp)
    (hlt : now + 60 > exp) :
    requestInterceptor s now (some t) =
      { store := { s with accessToken := some t,
                          accessTokenExp := some (toString (now + 3600)) }
        authHeader := some ("Bearer " ++ t)
        refreshAttempted := true } := by
  unfold requestInterceptor
  have hd : decide (exp < now + 60) = true := decide_eq_true hlt
  simp [ha, he, hr, hp, hd]

/-- On the refresh path with a failed exchange, the whole interceptor
result, computed (shared helper). -/
lemma interceptor_failure_eq (s : Store) (now : Nat) (exp : Nat)
    (ha : truthy s.accessToken = true) (he : truthy s.accessTokenExp = true)
    (hr : truthy s.refreshToken = true)
    (hp : parseIntNat (s.accessTokenExp.getD "") = some exp)
    (hlt : now + 60 > exp) :
    requestInterceptor s now none =
      { store := emptyStore
        authHeader := some ("Bearer " ++ s.accessToken.getD "")
        refreshAttempted := true } := by
  unfold requestInterceptor
  have hd : decide (exp < now + 60) = true := decide_eq_true hlt
  simp [ha, he, hr, hp, hd]

/-- C1: the interceptor attempts a refresh-token exchange iff a stored access
token and a stored expiry both exist (are truthy), a stored refresh token
exists, and the stored expiry is under one minute away (now + 60 s is
strictly after it). -/
theorem requestInterceptor_refresh_iff (s : Store) (now : Nat) (r : Option String) :
    (requestInterceptor s now r).refreshAttempted = true ↔
      (truthy s.accessToken = true ∧ truthy s.accessTokenExp = true ∧
       truthy s.refreshToken = true ∧
       ∃ exp, parseIntNat (s.accessTokenExp.getD "") = some exp ∧ now + 60 > exp) :=
  refreshAttempted_char s now r

/-- C1 witness: a concrete store one second from expiry triggers a refresh. -/
theorem requestInterceptor_refresh_iff_witness :
    (requestInterceptor ⟨some "tok", some "ref", some "100"⟩ 1000 (some "new")).refreshAttempted
      = true :=
  (requestInterceptor_refresh_iff ⟨some "tok", some "ref", some "100"⟩ 1000 (some "new")).mpr
    ⟨by decide, by decide, by decide, 100, by decide, by omega⟩

/-- C2: when the refresh exchange succeeds, the new access token is stored
under the accessToken key, the accessTokenExp key is set to now + one hour
(3600 s), and the Authorization header is Bearer plus the new token. -/
theorem requestInterceptor_refresh_success (s : Store) (now : Nat) (t : String)
    (h : (requestInterceptor s now (some t)).refreshAttempted = true) :
    (requestInterceptor s now (some t)).store.accessToken = some t ∧
    (requestInterceptor s now (some t)).store.accessTokenExp
      = some (toString (now + 3600)) ∧
    (requestInterceptor s now (some t)).authHeader = some ("Bearer " ++ t) := by
  obtain ⟨ha, he, hr, exp, hp, hlt⟩ := (refreshAttempted_char s now (some t)).mp h
  rw [interceptor_success_eq s now t exp ha he hr hp hlt]
  exact ⟨rfl, rfl, rfl⟩

/-- C2 witness: concrete successful refresh run. -/
theorem requestInterceptor_refresh_success_witness :
    (requestInterceptor ⟨some "tok", some "ref", some "100"⟩ 1000 (some "new")).store.accessToken
        = some "new" ∧
    (requestInterceptor ⟨some "tok", some "ref", some "100"⟩ 1000 (some "new")).store.accessTokenExp
        = some (toString (1000 + 3600)) ∧
    (requestInterceptor ⟨some "tok", some "ref", some "100"⟩ 1000 (some "new")).authHeader
        = some "Bearer new" :=
  requestInterceptor_refresh_success ⟨some "tok", some "ref", some "100"⟩ 1000 "new" (by decide)

/-- C3: when the refresh exchange fails, all three localStorage keys are
removed, and a subsequent interceptor run on the cleared store carries no
Authorization header and attempts no refresh. -/
theorem requestInterceptor_refresh_failure_clears (s : Store) (now : Nat)
    (h : (requestInterceptor s now none).refreshAttempted = true) :
    (requestInterceptor s now none).store = emptyStore ∧
    ∀ (now2 : Nat) (r2 : Option String),
      (requestInterceptor emptyStore now2 r2).authHeader = none ∧
      (requestInterceptor emptyStore now2 r2).refreshAttempted = false := by
  obtain ⟨ha, he, hr, exp, hp, hlt⟩ := (refreshAttempted_char s now none).mp h
  refine ⟨?_, fun now2 r2 => ⟨rfl, rfl⟩⟩
  rw [interceptor_failure_eq s now exp ha he hr hp hlt]

/-- C3 witness: concrete failed refresh run clears the store, and a concrete
subsequent run on the cleared store sends no credentials. -/
theorem requestInterceptor_refresh_failure_clears_witness :
    (requestInterceptor ⟨some "tok", some "ref", some "100"⟩ 1000 none).store = emptyStore ∧
    (requestInterceptor emptyStore 2000 none).authHeader = none ∧
    (requestInterceptor emptyStore 2000 none).refreshAttempted = false :=
  ⟨(requestInterceptor_refresh_failure_clears ⟨some "tok", some "ref", some "100"⟩ 1000
      (by decide)).1,
   (requestInterceptor_refresh_failure_clears ⟨some "tok", some "ref", some "100"⟩ 1000
      (by decide)).2 2000 none⟩

/-- C4: when the refresh exchange fails, the triggering request is still sent
with the old access token in its Authorization header. -/
theorem requestInterceptor_refresh_failure_sends_old (s : Store) (now : Nat) (a : String)
    (ha0 : s.accessToken = some a)
    (h : (requestInterceptor s now none).refreshAttempted = true) :
    (requestInterceptor s now none).authHeader = some ("Bearer " ++ a) := by
  obtain ⟨ha, he, hr, exp, hp, hlt⟩ := (refreshAttempted_char s now none).mp h
  rw [interceptor_failure_eq s now exp ha he hr hp hlt]
  simp [ha0]

/-- C4 witness: concrete failed refresh run still sends the old token. -/
theorem requestInterceptor_refresh_failure_sends_old_witness :
    (requestInterceptor ⟨some "tok", some "ref", some "100"⟩ 1000 none).authHeader
      = some "Bearer tok" :=
  requestInterceptor_refresh_failure_sends_old ⟨some "tok", some "ref", some "100"⟩ 1000 "tok"
    rfl (by decide)

/-- C6: if the credential exchange succeeds but the profile fetch fails, the
login promise rejects while both tokens, the recomputed expiry and the
default Authorization header remain set — login is not atomic. -/
theorem login_not_atomic (st : ClientState) (now : Nat) (a r : String) :
    (login st now (some (a, r)) none).1 = LoginOutcome.rejected ∧
    (login st now (some (a, r)) none).2.store.accessToken = some a ∧
    (login st now (some (a, r)) none).2.store.refreshToken = some r ∧
    (login st now (some (a, r)) none).2.store.accessTokenExp
      = some (toString (now + 3600)) ∧
    (login st now (some (a, r)) none).2.defaultAuth = some ("Bearer " ++ a) :=
  ⟨rfl, rfl, rfl, rfl, rfl⟩

/-- C6 witness: concrete non-atomic login run. -/
theorem login_not_atomic_witness :
    (login ⟨emptyStore, none, none⟩ 1000 (some ("acc", "ref")) none).1
        = LoginOutcome.rejected ∧
    (login ⟨emptyStore, none, none⟩ 1000 (some ("acc", "ref")) none).2.store.accessToken
        = some "acc" ∧
    (login ⟨emptyStore, none, none⟩ 1000 (some ("acc", "ref")) none).2.store.refreshToken
        = some "ref" ∧
    (login ⟨emptyStore, none, none⟩ 1000 (some ("acc", "ref")) none).2.store.accessTokenExp
        = some (toString (1000 + 3600)) ∧
    (login ⟨emptyStore, none, none⟩ 1000 (some ("acc", "ref")) none).2.defaultAuth
        = some ("Bearer " ++ "acc") :=
  login_not_atomic ⟨emptyStore, none, none⟩ 1000 "acc" "ref"

/-- C5: AdminRoute renders its children iff the current user exists and has
rol_nombre Super Administrador; in every other case it navigates to "/". -/
theorem AdminRoute_guard (user : Option UsuarioPerfil) :
    (AdminRoute user = RenderOutcome.children ↔
      ∃ u, user = some u ∧ u.rol_nombre = "Super Administrador") ∧
    (AdminRoute user ≠ RenderOutcome.children →
      AdminRoute user = RenderOutcome.navigateTo "/") := by
  rcases user with _ | u
  · simp [AdminRoute]
  · by_cases h : u.rol_nombre = "Super Administrador" <;> simp [AdminRoute, h]

/-- C5 witness: a Super Administrador renders the children; a plain user and
a missing session navigate home. -/
theorem AdminRoute_guard_witness :
    AdminRoute (some ⟨1, "root", "root@x", none, 1, "Super Administrador"⟩)
        = RenderOutcome.children ∧
    AdminRoute (some ⟨2, "ana", "ana@x", none, 2, "Supervisor"⟩)
        = RenderOutcome.navigateTo "/" ∧
    AdminRoute none = RenderOutcome.navigateTo "/" :=
  ⟨(AdminRoute_guard (some ⟨1, "root", "root@x", none, 1, "Super Administrador"⟩)).1.mpr
      ⟨_, rfl, rfl⟩,
   (AdminRoute_guard (some ⟨2, "ana", "ana@x", none, 2, "Supervisor"⟩)).2 (by decide),
   (AdminRoute_guard none).2 (by decide)⟩

/-- C9 counterexample: with a fetched status reporting the system as not
initialized, the rendered initialize button is enabled, contradicting the
claim that the initialize/release buttons are disabled when the system is
not initialized. -/
theorem analisisButtons_counterexample :
    sistemaInicializado (some ⟨false, none⟩) = false ∧
    sistemaButtonRendered (some ⟨false, none⟩) = SistemaButton.inicializar ∧
    sistemaButtonDisabled (sistemaButtonRendered (some ⟨false, none⟩)) = false := by
  decide

/-- C9 (amended): the trigger button is disabled exactly when an analysis is
in progress or the status does not report the system as initialized; the
initialize/release buttons are never disabled — the page instead renders
Inicializar when the system is not initialized and Liberar when it is. -/
theorem analisisButtons_amended (procesando : Bool) (estado : Option EstadoSistema) :
    (triggerButtonDisabled procesando estado = true ↔
      (procesando = true ∨ sistemaInicializado estado = false)) ∧
    (∀ b, sistemaButtonDisabled b = false) ∧
    (sistemaButtonRendered estado = SistemaButton.inicializar ↔
      sistemaInicializado estado = false) := by
  refine ⟨?_, fun b => by cases b <;> rfl, ?_⟩
  · cases procesando <;> cases h : sistemaInicializado estado <;>
      simp [triggerButtonDisabled, h]
  · cases h : sistemaInicializado estado <;> simp [sistemaButtonRendered, h]

/-- C9 witness: concrete states on both sides of the amended equivalences. -/
theorem analisisButtons_amended_witness :
    (triggerButtonDisabled false (some ⟨false, none⟩) = true ∧
     sistemaButtonRendered (some ⟨false, none⟩) = SistemaButton.inicializar) ∧
    (triggerButtonDisabled false (some ⟨true, none⟩) = false ∧
     sistemaButtonDisabled SistemaButton.liberar = false) :=
  ⟨⟨(analisisButtons_amended false (some ⟨false, none⟩)).1.mpr (Or.inr rfl),
    (analisisButtons_amended false (some ⟨false, none⟩)).2.2.mpr rfl⟩,
   ⟨by decide, (analisisButtons_amended false (some ⟨true, none⟩)).2.1 SistemaButton.liberar⟩⟩

/-- C10: no displayed user row and no role offered by the form dropdown ever
has rol_nombre Super Administrador. -/
theorem superAdmin_never_listed (fetched : List UsuarioPerfil)
    (rolesFetched : Option (List Rol)) :
    (∀ u ∈ loadUsuarios fetched, u.rol_nombre ≠ "Super Administrador") ∧
    (∀ r ∈ rolesDropdown rolesFetched, r.rol_nombre ≠ "Super Administrador") := by
  constructor
  · intro u hu
    have := List.of_mem_filter hu
    simpa using this
  · intro r hr
    rcases rolesFetched with _ | rs
    · simp [rolesDropdown] at hr
    · have := List.of_mem_filter (p := fun r => !(r.rol_nombre == "Super Administrador"))
        (l := rs) hr
      simpa using this

/-- C10 witness: the surviving concrete row and dropdown entry are not Super
Administrador, via the theorem applied to concrete fetched lists. -/
theorem superAdmin_never_listed_witness :
    (⟨2, "ana", "ana@x", none, 2, "Supervisor"⟩ : UsuarioPerfil).rol_nombre
        ≠ "Super Administrador" ∧
    (⟨2, "Supervisor", "ops"⟩ : Rol).rol_nombre ≠ "Super Administrador" :=
  ⟨(superAdmin_never_listed
      [⟨1, "root", "root@x", none, 1, "Super Administrador"⟩,
       ⟨2, "ana", "ana@x", none, 2, "Supervisor"⟩]
      (some [⟨1, "Super Administrador", "todo"⟩, ⟨2, "Supervisor", "ops"⟩])).1
      ⟨2, "ana", "ana@x", none, 2, "Supervisor"⟩ (by decide),
   (superAdmin_never_listed
      [⟨1, "root", "root@x", none, 1, "Super Administrador"⟩,
       ⟨2, "ana", "ana@x", none, 2, "Supervisor"⟩]
      (some [⟨1, "Super Administrador", "todo"⟩, ⟨2, "Supervisor", "ops"⟩])).2
      ⟨2, "Supervisor", "ops"⟩ (by decide)⟩

/-- Fact that `s.isEmpty = false` means `s` is not the empty string (shared helper). -/
lemma isEmpty_false_iff (s : String) : s.isEmpty = false ↔ s ≠ "" := by
  simp only [ne_eq, ← String.isEmpty_iff, Bool.not_eq_true]

/-- Order `a ≤ b` on characters is comparison of their code points. -/
lemma char_le_iff (a b : Char) : a ≤ b ↔ a.toNat ≤ b.toNat :=
  Iff.trans Char.le_def UInt32.le_def

/-- Character equality is equality of code points. -/
lemma char_eq_iff (a b : Char) : a = b ↔ a.toNat = b.toNat :=
  ⟨fun h => h ▸ rfl, fun h => Char.ext (UInt32.ext h)⟩

/-- A character is a digit iff its code point lies in [48, 57]. -/
lemma isDigit_iff (c : Char) : c.isDigit = true ↔ 48 ≤ c.toNat ∧ c.toNat ≤ 57 := by
  have h : c.isDigit = (decide ('0' ≤ c) && decide (c ≤ '9')) := rfl
  rw [h]
  simp only [Bool.and_eq_true, decide_eq_true_eq, char_le_iff]
  exact Iff.rfl

/-- The octet alternation accepts exactly the 1–3 digit strings whose decimal
value is at most 255 (shared helper). -/
lemma matchesOctet_iff (p : List Char) :
    matchesOctet p = true ↔
      (1 ≤ p.length ∧ p.length ≤ 3 ∧ (∀ c ∈ p, c.isDigit = true) ∧
       specOctetValue p ≤ 255) := by
  have h0 : ('0' : Char).toNat = 48 := rfl
  have h1 : ('1' : Char).toNat = 49 := rfl
  have h2 : ('2' : Char).toNat = 50 := rfl
  have h4 : ('4' : Char).toNat = 52 := rfl
  have h5 : ('5' : Char).toNat = 53 := rfl
  match p with
  | [] => simp [matchesOctet, specOctetValue]
  | [a] =>
      simp only [matchesOctet, specOctetValue, List.foldl, List.length_cons,
        List.length_nil, List.forall_mem_cons, List.forall_mem_ne, isDigit_iff,
        List.not_mem_nil, false_implies, implies_true, and_true]
      omega
  | [a, b] =>
      simp only [matchesOctet, specOctetValue, List.foldl, List.length_cons,
        List.length_nil, List.forall_mem_cons, isDigit_iff, Bool.and_eq_true,
        List.not_mem_nil, false_implies, implies_true, and_true]
      omega
  | [a, b, c] =>
      simp only [matchesOctet, specOctetValue, List.foldl, List.length_cons,
        List.length_nil, List.forall_mem_cons, isDigit_iff, Bool.and_eq_true,
        Bool.or_eq_true, beq_iff_eq, decide_eq_true_eq, char_le_iff, char_eq_iff,
        h0, h1, h2, h4, h5, List.not_mem_nil, false_implies, implies_true, and_true]
      omega
  | a :: b :: c :: d :: rest =>
      constructor
      · intro h
        exact absurd h (by simp [matchesOctet])
      · rintro ⟨-, h2, -, -⟩
        simp only [List.length_cons] at h2
        omega

/-- The whole IPv4 regex, characterised by the spec's reading: four parts,
each a 1–3 digit run of value at most 255 (shared helper). -/
lemma matchesIPv4_iff (s : String) :
    matchesIPv4 s = true ↔
      ((splitOnDot s.data).length = 4 ∧
       ∀ p ∈ splitOnDot s.data,
         1 ≤ p.length ∧ p.length ≤ 3 ∧ (∀ c ∈ p, c.isDigit = true) ∧
         specOctetValue p ≤ 255) := by
  simp only [matchesIPv4, Bool.and_eq_true, beq_iff_eq, List.all_eq_true,
    matchesOctet_iff]

/-- The nombre rule reduces to its length bound (shared helper). -/
lemma nombreOk_iff (s : String) : nombreOk s = true ↔ 3 ≤ s.length := by
  simp only [nombreOk, Bool.and_eq_true, Bool.not_eq_true', decide_eq_true_eq,
    isEmpty_false_iff]
  constructor
  · exact fun h => h.2
  · intro h
    refine ⟨?_, h⟩
    intro he
    subst he
    exact absurd h (by decide)

/-- The ip rule reduces to the regex match (shared helper). -/
lemma ipOk_iff (s : String) : ipOk s = true ↔ matchesIPv4 s = true := by
  simp only [ipOk, Bool.and_eq_true, Bool.not_eq_true', isEmpty_false_iff]
  constructor
  · exact fun h => h.2
  · intro h
    refine ⟨?_, h⟩
    intro he
    subst he
    exact absurd h (by decide)

/-- The umbral rule holds iff the field carries a rational in [0, 1]
(shared helper). -/
lemma umbralOk_iff (o : Option Rat) :
    umbralOk o = true ↔ ∃ q, o = some q ∧ 0 ≤ q ∧ q ≤ 1 := by
  rcases o with _ | q <;> simp [umbralOk]

/-- The robustness rule holds iff the value is one of the four presets
(shared helper). -/
lemma robustezOk_iff (s : String) :
    robustezOk s = true ↔
      (s = "original" ∨ s = "moderada" ∨ s = "permisiva" ∨
       s = "ultra_permisiva") := by
  have hc : robustezOptions.contains s = true ↔
      (s = "original" ∨ s = "moderada" ∨ s = "permisiva" ∨
       s = "ultra_permisiva") := by
    simp only [robustezOptions, List.contains_cons, List.contains_nil,
      Bool.or_eq_true, beq_iff_eq, or_false]
    tauto
  simp only [robustezOk, Bool.and_eq_true, Bool.not_eq_true',
    isEmpty_false_iff, hc]
  constructor
  · exact fun h => h.2
  · intro h
    refine ⟨?_, h⟩
    intro he
    subst he
    rcases h with h | h | h | h <;> exact absurd h (by decide)

/-- C7: the configuration form accepts a submission iff nombre has at least 3
characters, ip_camara splits at dots into exactly four parts, each a run of
one to three digits of decimal value at most 255 (the IPv4 dotted quad),
both thresholds are present and within [0, 1], and the robustness preset is
one of exactly original, moderada, permisiva, ultra_permisiva. -/
theorem validationSchema_iff (v : ConfigFormValues) :
    validationSchema v = true ↔
      (3 ≤ v.nombre.length ∧
       ((splitOnDot v.ip_camara.data).length = 4 ∧
        ∀ p ∈ splitOnDot v.ip_camara.data,
          1 ≤ p.length ∧ p.length ≤ 3 ∧ (∀ c ∈ p, c.isDigit = true) ∧
          specOctetValue p ≤ 255) ∧
       (∃ q, v.umbral_confianza = some q ∧ 0 ≤ q ∧ q ≤ 1) ∧
       (∃ q, v.umbral_iou = some q ∧ 0 ≤ q ∧ q ≤ 1) ∧
       (v.configuracion_robustez = "original" ∨
        v.configuracion_robustez = "moderada" ∨
        v.configuracion_robustez = "permisiva" ∨
        v.configuracion_robustez = "ultra_permisiva")) := by
  simp only [validationSchema, Bool.and_eq_true, nombreOk_iff, ipOk_iff,
    umbralOk_iff, robustezOk_iff, matchesIPv4_iff]
  tauto

/-- C7 witness: the form's default camera IP and thresholds pass the schema. -/
theorem validationSchema_iff_witness :
    validationSchema
      ⟨"camara norte", "172.16.1.21", some (55 / 100), some (35 / 100),
       "original", false⟩ = true :=
  (validationSchema_iff
      ⟨"camara norte", "172.16.1.21", some (55 / 100), some (35 / 100),
       "original", false⟩).mpr
    ⟨by decide, by decide,
     ⟨55 / 100, rfl, by norm_num, by norm_num⟩,
     ⟨35 / 100, rfl, by norm_num, by norm_num⟩,
     Or.inl rfl⟩

/-- C8: on create the schema is satisfied only with a non-empty password
equal to its confirmation; on edit an empty password is accepted (the schema
degenerates to the base rules) and the confirmation must match exactly when
the password is non-empty. -/
theorem passwordConfirmation_rules (emailOk : String → Bool) (v : UsuarioFormValues) :
    (createSchema emailOk v = true →
      v.password ≠ "" ∧ v.confirmPassword ≠ "" ∧ v.confirmPassword = v.password) ∧
    (v.password = "" → editSchema emailOk v = baseOk emailOk v) ∧
    (v.password ≠ "" →
      (editSchema emailOk v = true ↔
        (baseOk emailOk v = true ∧ v.confirmPassword = v.password))) := by
  have hif : ∀ s : String, s.isEmpty = false ↔ s ≠ "" := by
    intro s
    simp only [ne_eq, ← String.isEmpty_iff, Bool.not_eq_true]
  refine ⟨?_, ?_, ?_⟩
  · intro h
    simp only [createSchema, Bool.and_eq_true, beq_iff_eq, Bool.not_eq_true',
      hif] at h
    exact ⟨h.1.2, h.2.1, h.2.2⟩
  · intro h
    have h0 : ("" : String).isEmpty = true := rfl
    simp [editSchema, h, h0]
  · intro h
    have hne : v.password.isEmpty = false := (hif v.password).mpr h
    simp [editSchema, hne]

/-- C8 witness: a concrete create submission with matching passwords, and a
concrete edit submission with an untouched password. -/
theorem passwordConfirmation_rules_witness :
    ((⟨"ana", "ana@x", "Ana", 2, "s3cret", "s3cret"⟩ : UsuarioFormValues).password ≠ "" ∧
     (⟨"ana", "ana@x", "Ana", 2, "s3cret", "s3cret"⟩ : UsuarioFormValues).confirmPassword ≠ "" ∧
     (⟨"ana", "ana@x", "Ana", 2, "s3cret", "s3cret"⟩ : UsuarioFormValues).confirmPassword
        = (⟨"ana", "ana@x", "Ana", 2, "s3cret", "s3cret"⟩ : UsuarioFormValues).password) ∧
    editSchema (fun _ => true) ⟨"ana", "ana@x", "Ana", 2, "", ""⟩
      = baseOk (fun _ => true) ⟨"ana", "ana@x", "Ana", 2, "", ""⟩ :=
  ⟨(passwordConfirmation_rules (fun _ => true)
      ⟨"ana", "ana@x", "Ana", 2, "s3cret", "s3cret"⟩).1 (by decide),
   (passwordConfirmation_rules (fun _ => true)
      ⟨"ana", "ana@x", "Ana", 2, "", ""⟩).2.1 rfl⟩

end ImoeeVision
